import Mathlib

/-!
Verification of the persistence schema of the Solar-Usage-Optimisation
repository (`models.py`).

The repository source is a declarative object-relational schema (seven
record kinds with primary keys, foreign keys, column defaults and cascade
rules) plus two credential-handling methods on `User`
(`set_password` / `check_password`, thin wrappers around werkzeug's
`generate_password_hash` / `check_password_hash`).

The embedding has two parts.

Part 1 models the credential functions.  The hashing functions themselves
live in werkzeug, outside the repository, so they are modelled from the
spec: `generate_password_hash` derives a salted digest and renders it as
`method$salt$digest`; `check_password_hash` splits the stored string at
the first two separators, recomputes the digest from the stored salt and
the candidate plaintext, and compares.  The digest is modelled as an
injective function of the salt and the plaintext (cryptographic
one-wayness is an idealisation a computable shallow embedding cannot
express; none of the proved statements depend on it).  The random salt
drawn on each call is modelled as a fresh-salt counter threaded through
`set_password`, reflecting the spec's assumption that two calls draw two
distinct salts.

Part 2 models the stored state: one list of rows per table, mirroring the
columns of `models.py` (nullable columns become `Option`, `DateTime`
becomes `Nat`, SQL `Float` becomes `Rat`; no arithmetic is performed on
either).  The write operations are the generic ORM writes as constrained
by the declared schema: inserts check the declared unique columns and
foreign keys, deletes follow the declared cascade rules (`Scan.devices`,
`Scan.solar_assessment` and `Device.vulnerabilities` carry
`cascade all, delete-orphan`; the `Scan.reports` and `User.scans`
relationships carry no cascade, so with non-nullable child foreign keys a
delete of a referenced parent fails under referential integrity).  The
scan status lifecycle (pending to running to completed/failed, end time
set on the terminal transition) has no code in the provided source and is
modelled from the spec.  `Reachable` closes the empty database under
these operations.
-/

/-! ## Part 1: credentials (modelled from the spec, werkzeug is external) -/

/-- Method tag of the derivation, the part of werkzeug's stored format
before the first separator (constant for a fixed configuration). -/
def methodTag : List Char :=
  ['s', 'c', 'r', 'y', 'p', 't', ':', '3', '2', '7', '6', '8', ':', '8', ':', '1']

/-- Modelled from the spec: the random salt werkzeug draws is a value of
an abstract entropy counter; it is rendered into the stored string as a
separator-free block of characters, one per unit. -/
def saltChars (salt : Nat) : List Char :=
  List.replicate salt 's'

/-- Modelled from the spec: the key-derivation digest, a deterministic
function of the salt block and the plaintext, injective in the plaintext
for a fixed salt.  One-wayness is idealised away; no proved statement
uses invertibility either way. -/
def digestChars (saltBlock : List Char) (password : String) : List Char :=
  saltBlock ++ '|' :: password.data.reverse

/-- The character list of the stored hash: `method$salt$digest`. -/
def genList (salt : Nat) (password : String) : List Char :=
  methodTag ++ '$' :: (saltChars salt ++ '$' :: digestChars (saltChars salt) password)

/-- Modelled from the spec: werkzeug's `generate_password_hash`.  Takes
the drawn salt explicitly and returns the rendered `method$salt$digest`
string. -/
def generate_password_hash (salt : Nat) (password : String) : String :=
  String.mk (genList salt password)

/-- Split a character list at the first `'$'`; `none` when there is no
separator (a malformed stored value). -/
def break1 : List Char → Option (List Char × List Char)
  | [] => none
  | c :: cs =>
    if c = '$' then some ([], cs)
    else
      match break1 cs with
      | none => none
      | some (a, b) => some (c :: a, b)

/-- Parse `method$salt$digest`: split at the first two separators, the
digest is everything after the second one. -/
def parseHash (cs : List Char) : Option (List Char × List Char × List Char) :=
  match break1 cs with
  | none => none
  | some (m, rest) =>
    match break1 rest with
    | none => none
    | some (s, d) => some (m, s, d)

/-- Modelled from the spec: werkzeug's `check_password_hash`.  Parses the
stored value, recomputes the digest deterministically from the stored
salt and the candidate plaintext, and compares; any malformed stored
value verifies as `false`. -/
def check_password_hash (stored : String) (password : String) : Bool :=
  match parseHash stored.data with
  | none => false
  | some (m, s, d) => m == methodTag && d == digestChars s password

/-- The `User` row of `models.py`: unique username and email, the stored
password hash, optional contact fields, creation timestamp. -/
structure User where
  id : Nat
  username : String
  email : String
  password_hash : String
  company_name : Option String
  address : Option String
  phone : Option String
  created_at : Nat
deriving DecidableEq

/-- `User.set_password` from `models.py`: stores
`generate_password_hash(password)` in `password_hash`.  The werkzeug RNG
state is made explicit: the call consumes the current fresh-salt counter
and returns the advanced counter alongside the updated row. -/
def User.set_password (u : User) (rng : Nat) (password : String) : User × Nat :=
  ({ u with password_hash := generate_password_hash rng password }, rng + 1)

/-- `User.check_password` from `models.py`:
`check_password_hash(self.password_hash, password)`. -/
def User.check_password (u : User) (password : String) : Bool :=
  check_password_hash u.password_hash password

/-! ## Part 2: the stored state and the schema-constrained writes -/

/-- The `Scan` row: owned by one `User`, with type/status strings, the
aggregate counters, and start/end timestamps. -/
structure Scan where
  id : Nat
  user_id : Nat
  name : String
  network_range : String
  scan_type : String
  status : String
  total_devices : Int
  vulnerable_devices : Int
  start_time : Nat
  end_time : Option Nat
deriving DecidableEq

/-- The `Device` row: owned by one `Scan`. -/
structure Device where
  id : Nat
  scan_id : Nat
  ip_address : String
  mac_address : Option String
  hostname : Option String
  device_type : Option String
  manufacturer : Option String
  os : Option String
  firmware_version : Option String
  is_vulnerable : Bool
  is_solar_device : Bool
  open_ports : Option String
  last_seen : Nat
deriving DecidableEq

/-- The `Vulnerability` row: owned by one `Device`.  `cvss_score` is a
SQL `Float` column; it is carried as `Rat` and never computed on. -/
structure Vulnerability where
  id : Nat
  device_id : Nat
  name : String
  description : Option String
  severity : Option String
  cvss_score : Option Rat
  cve_id : Option String
  affected_component : Option String
  remediation : Option String
  discovered_at : Nat
  status : String
deriving DecidableEq

/-- The `Report` row: references one `User` and one `Scan`, both
non-nullable, with no cascade declared on either relationship. -/
structure Report where
  id : Nat
  user_id : Nat
  scan_id : Nat
  report_type : String
  file_path : Option String
  created_at : Nat
deriving DecidableEq

/-- The `ThreatIntelligence` row: standalone, no foreign keys. -/
structure ThreatIntelligence where
  id : Nat
  title : String
  description : Option String
  threat_type : Option String
  severity : Option String
  cve_id : Option String
  published_date : Nat
  source : Option String
  affected_systems : Option String
  mitigation : Option String
  is_relevant_to_solar : Bool
  is_relevant_to_iot : Bool
deriving DecidableEq

/-- The `FirewallRule` row: owned by one `User`. -/
structure FirewallRule where
  id : Nat
  user_id : Nat
  name : String
  description : Option String
  source_ip : Option String
  destination_ip : Option String
  protocol : Option String
  port_range : Option String
  action : Option String
  priority : Option Int
  is_active : Bool
  created_at : Nat
  updated_at : Option Nat
deriving DecidableEq

/-- The `SolarAssessment` row: references one `Scan` through a
non-nullable `scan_id` column that carries no unique constraint in the
schema. -/
structure SolarAssessment where
  id : Nat
  scan_id : Nat
  security_score : Option Int
  inverter_vulnerabilities : Option String
  monitoring_system_vulnerabilities : Option String
  communication_protocol_issues : Option String
  network_isolation_score : Option Int
  authentication_strength : Option String
  encryption_status : Option String
  firmware_status : Option String
  recommendations : Option String
  created_at : Nat
deriving DecidableEq

/-- The stored state: one list of rows per table of `models.py`. -/
structure DB where
  users : List User
  scans : List Scan
  devices : List Device
  vulnerabilities : List Vulnerability
  reports : List Report
  threat_intelligence : List ThreatIntelligence
  firewall_rules : List FirewallRule
  solar_assessments : List SolarAssessment
deriving DecidableEq

/-- The empty database. -/
def DB.empty : DB :=
  ⟨[], [], [], [], [], [], [], []⟩

/-- The distinguishable failure conditions of a schema-constrained
write: a unique-column violation, a foreign-key reference to a missing
parent, a delete blocked by a non-cascading non-nullable reference, and
a scan status change outside the lifecycle. -/
inductive DBError where
  | duplicate
  | fkViolation
  | restrictViolation
  | invalidTransition
deriving DecidableEq

/-- Does a `User` row with this id exist? -/
def hasUser (db : DB) (uid : Nat) : Bool :=
  db.users.any (fun u => u.id == uid)

/-- Does a `Scan` row with this id exist? -/
def hasScan (db : DB) (sid : Nat) : Bool :=
  db.scans.any (fun s => s.id == sid)

/-- Does a `Device` row with this id exist? -/
def hasDevice (db : DB) (did : Nat) : Bool :=
  db.devices.any (fun d => d.id == did)

/-- Insert a `User` row: the schema declares `username` and `email`
unique (and `id` is the primary key); a violation is the duplicate
condition. -/
def insertUser (db : DB) (u : User) : Except DBError DB :=
  if db.users.any (fun v => v.username == u.username || v.email == u.email) then
    .error .duplicate
  else if db.users.any (fun v => v.id == u.id) then
    .error .duplicate
  else
    .ok { db with users := db.users ++ [u] }

/-- A freshly created `Scan` row with the column defaults of the schema:
`scan_type` defaults to `"standard"` when not given, `status` starts at
`"pending"`, both counters at `0`, `start_time` at the creation instant,
`end_time` unset. -/
def mkScan (id uid : Nat) (name range : String) (stype : Option String) (now : Nat) : Scan :=
  { id := id, user_id := uid, name := name, network_range := range,
    scan_type := stype.getD "standard", status := "pending",
    total_devices := 0, vulnerable_devices := 0,
    start_time := now, end_time := none }

/-- Create a `Scan`: `user_id` must reference an existing `User`
(non-nullable foreign key), the primary key must be fresh; the new row
carries the schema defaults. -/
def createScan (db : DB) (id uid : Nat) (name range : String) (stype : Option String)
    (now : Nat) : Except DBError DB :=
  if !(hasUser db uid) then
    .error .fkViolation
  else if db.scans.any (fun s => s.id == id) then
    .error .duplicate
  else
    .ok { db with scans := db.scans ++ [mkScan id uid name range stype now] }

/-- Insert a `Device` row: `scan_id` must reference an existing `Scan`. -/
def insertDevice (db : DB) (d : Device) : Except DBError DB :=
  if !(hasScan db d.scan_id) then
    .error .fkViolation
  else if db.devices.any (fun e => e.id == d.id) then
    .error .duplicate
  else
    .ok { db with devices := db.devices ++ [d] }

/-- Insert a `Vulnerability` row: `device_id` must reference an existing
`Device`. -/
def insertVulnerability (db : DB) (v : Vulnerability) : Except DBError DB :=
  if !(hasDevice db v.device_id) then
    .error .fkViolation
  else if db.vulnerabilities.any (fun w => w.id == v.id) then
    .error .duplicate
  else
    .ok { db with vulnerabilities := db.vulnerabilities ++ [v] }

/-- Insert a `Report` row: `user_id` and `scan_id` must reference
existing parents. -/
def insertReport (db : DB) (r : Report) : Except DBError DB :=
  if !(hasUser db r.user_id) then
    .error .fkViolation
  else if !(hasScan db r.scan_id) then
    .error .fkViolation
  else if db.reports.any (fun s => s.id == r.id) then
    .error .duplicate
  else
    .ok { db with reports := db.reports ++ [r] }

/-- Insert a `SolarAssessment` row: `scan_id` must reference an existing
`Scan`.  The schema puts no unique constraint on `scan_id`, so nothing
here rejects a second row for the same scan. -/
def insertSolarAssessment (db : DB) (a : SolarAssessment) : Except DBError DB :=
  if !(hasScan db a.scan_id) then
    .error .fkViolation
  else if db.solar_assessments.any (fun b => b.id == a.id) then
    .error .duplicate
  else
    .ok { db with solar_assessments := db.solar_assessments ++ [a] }

/-- Assign through the one-to-one `Scan.solar_assessment` relationship
(`uselist=False`, `cascade all, delete-orphan`): the assignment replaces
any assessment previously attached to the scan, deleting the orphan. -/
def setSolarAssessment (db : DB) (a : SolarAssessment) : Except DBError DB :=
  if !(hasScan db a.scan_id) then
    .error .fkViolation
  else
    .ok { db with solar_assessments :=
            (db.solar_assessments.filter (fun b => !(b.scan_id == a.scan_id))) ++ [a] }

/-- Insert a `ThreatIntelligence` row: standalone, primary key only. -/
def insertThreatIntelligence (db : DB) (t : ThreatIntelligence) : Except DBError DB :=
  if db.threat_intelligence.any (fun s => s.id == t.id) then
    .error .duplicate
  else
    .ok { db with threat_intelligence := db.threat_intelligence ++ [t] }

/-- Insert a `FirewallRule` row: `user_id` must reference an existing
`User`. -/
def insertFirewallRule (db : DB) (f : FirewallRule) : Except DBError DB :=
  if !(hasUser db f.user_id) then
    .error .fkViolation
  else if db.firewall_rules.any (fun g => g.id == f.id) then
    .error .duplicate
  else
    .ok { db with firewall_rules := db.firewall_rules ++ [f] }

/-- Modelled from the spec: the scan status lifecycle (no transition code
is in the provided source).  A pending scan may start running; a running
scan may finish completed or failed, and only that terminal transition
sets `end_time`. -/
def setScanStatus (db : DB) (sid : Nat) (newStatus : String) (now : Nat) :
    Except DBError DB :=
  match db.scans.find? (fun s => s.id == sid) with
  | none => .error .fkViolation
  | some s =>
    if s.status == "pending" && newStatus == "running" then
      .ok { db with scans :=
              db.scans.map (fun t => if t.id == sid then { t with status := newStatus } else t) }
    else if s.status == "running" && (newStatus == "completed" || newStatus == "failed") then
      .ok { db with scans :=
              db.scans.map (fun t =>
                if t.id == sid then { t with status := newStatus, end_time := some now } else t) }
    else
      .error .invalidTransition

/-- Delete a `Scan`.  The declared cascades remove its `Device` rows,
their `Vulnerability` rows and its `SolarAssessment` rows; the
`Scan.reports` relationship declares no cascade and `Report.scan_id` is
non-nullable, so a scan still referenced by a report cannot be deleted. -/
def deleteScan (db : DB) (sid : Nat) : Except DBError DB :=
  if db.reports.any (fun r => r.scan_id == sid) then
    .error .restrictViolation
  else
    .ok { db with
      scans := db.scans.filter (fun s => !(s.id == sid)),
      devices := db.devices.filter (fun d => !(d.scan_id == sid)),
      vulnerabilities := db.vulnerabilities.filter (fun v =>
        !(db.devices.any (fun d => d.id == v.device_id && d.scan_id == sid))),
      solar_assessments := db.solar_assessments.filter (fun a => !(a.scan_id == sid)) }

/-- Delete a `User`.  No relationship out of `User` declares a cascade
and the referencing foreign keys (`Scan.user_id`, `Report.user_id`,
`FirewallRule.user_id`) are non-nullable, so a user still referenced
cannot be deleted. -/
def deleteUser (db : DB) (uid : Nat) : Except DBError DB :=
  if db.scans.any (fun s => s.user_id == uid) ||
      db.reports.any (fun r => r.user_id == uid) ||
      db.firewall_rules.any (fun f => f.user_id == uid) then
    .error .restrictViolation
  else
    .ok { db with users := db.users.filter (fun u => !(u.id == uid)) }

/-- One schema-constrained write succeeding. -/
inductive Step : DB → DB → Prop where
  | insUser (db : DB) (u : User) (db' : DB) :
      insertUser db u = .ok db' → Step db db'
  | newScan (db : DB) (id uid : Nat) (name range : String) (stype : Option String)
      (now : Nat) (db' : DB) :
      createScan db id uid name range stype now = .ok db' → Step db db'
  | insDevice (db : DB) (d : Device) (db' : DB) :
      insertDevice db d = .ok db' → Step db db'
  | insVuln (db : DB) (v : Vulnerability) (db' : DB) :
      insertVulnerability db v = .ok db' → Step db db'
  | insReport (db : DB) (r : Report) (db' : DB) :
      insertReport db r = .ok db' → Step db db'
  | insSolar (db : DB) (a : SolarAssessment) (db' : DB) :
      insertSolarAssessment db a = .ok db' → Step db db'
  | setSolar (db : DB) (a : SolarAssessment) (db' : DB) :
      setSolarAssessment db a = .ok db' → Step db db'
  | insThreat (db : DB) (t : ThreatIntelligence) (db' : DB) :
      insertThreatIntelligence db t = .ok db' → Step db db'
  | insFirewall (db : DB) (f : FirewallRule) (db' : DB) :
      insertFirewallRule db f = .ok db' → Step db db'
  | status (db : DB) (sid : Nat) (newStatus : String) (now : Nat) (db' : DB) :
      setScanStatus db sid newStatus now = .ok db' → Step db db'
  | delScan (db : DB) (sid : Nat) (db' : DB) :
      deleteScan db sid = .ok db' → Step db db'
  | delUser (db : DB) (uid : Nat) (db' : DB) :
      deleteUser db uid = .ok db' → Step db db'

/-- The states reachable from the empty database through the
schema-constrained writes. -/
inductive Reachable : DB → Prop where
  | init : Reachable DB.empty
  | step (db db' : DB) : Reachable db → Step db db' → Reachable db'

/-! ## Concrete rows and states used to instantiate the theorems -/

/-- A concrete user row. -/
def wUser : User :=
  { id := 1, username := "alice", email := "alice@example.com", password_hash := "x",
    company_name := none, address := none, phone := none, created_at := 0 }

/-- A second user row sharing `wUser`'s username. -/
def wUserDup : User :=
  { wUser with id := 2, email := "bob@example.com" }

/-- A concrete scan row with the creation defaults. -/
def wScan : Scan := mkScan 1 1 "perimeter" "10.0.0.0/24" none 0

/-- A second scan of the same user. -/
def wScan2 : Scan := mkScan 2 1 "backup" "10.0.1.0/24" none 0

/-- A device of the first scan. -/
def wDevice : Device :=
  { id := 1, scan_id := 1, ip_address := "10.0.0.5", mac_address := none, hostname := none,
    device_type := none, manufacturer := none, os := none, firmware_version := none,
    is_vulnerable := false, is_solar_device := false, open_ports := none, last_seen := 0 }

/-- A device of the second scan. -/
def wDevice2 : Device :=
  { wDevice with id := 2, scan_id := 2, ip_address := "10.0.1.5" }

/-- A vulnerability of the first device. -/
def wVuln : Vulnerability :=
  { id := 1, device_id := 1, name := "default credentials", description := none,
    severity := none, cvss_score := none, cve_id := none, affected_component := none,
    remediation := none, discovered_at := 0, status := "open" }

/-- A vulnerability of the second device. -/
def wVuln2 : Vulnerability := { wVuln with id := 2, device_id := 2 }

/-- A report of the first scan. -/
def wReport : Report :=
  { id := 1, user_id := 1, scan_id := 1, report_type := "full", file_path := none,
    created_at := 0 }

/-- A solar assessment of the first scan. -/
def wSolar : SolarAssessment :=
  { id := 1, scan_id := 1, security_score := none, inverter_vulnerabilities := none,
    monitoring_system_vulnerabilities := none, communication_protocol_issues := none,
    network_isolation_score := none, authentication_strength := none,
    encryption_status := none, firmware_status := none, recommendations := none,
    created_at := 0 }

/-- A second solar assessment of the same scan, distinct primary key. -/
def wSolar2 : SolarAssessment := { wSolar with id := 2 }

/-- State with one user. -/
def dbU : DB := { DB.empty with users := [wUser] }

/-- State with one user and one scan. -/
def dbS : DB := { dbU with scans := [wScan] }

/-- State with one user, one scan and one solar assessment. -/
def dbA1 : DB := { dbS with solar_assessments := [wSolar] }

/-- State with two plainly inserted solar assessments of the same scan. -/
def dbBad : DB := { dbS with solar_assessments := [wSolar, wSolar2] }

/-- State with two scans, their devices and vulnerabilities, and a solar
assessment of the first scan. -/
def dbFull : DB :=
  { dbU with
    scans := [wScan, wScan2], devices := [wDevice, wDevice2],
    vulnerabilities := [wVuln, wVuln2], solar_assessments := [wSolar] }

/-- `dbFull` after deleting the first scan. -/
def dbFullDel : DB :=
  { dbU with
    scans := [wScan2], devices := [wDevice2], vulnerabilities := [wVuln2],
    solar_assessments := [] }

/-- State with a report referencing the scan. -/
def dbR : DB := { dbS with reports := [wReport] }

/-- `dbU` after deleting its only user. -/
def dbUDel : DB := { dbU with users := [] }

/-- At most one `SolarAssessment` row per scan: any two assessment rows
with the same `scan_id` are the same row. -/
def solarUniquePerScan (db : DB) : Prop :=
  ∀ a ∈ db.solar_assessments, ∀ b ∈ db.solar_assessments, a.scan_id = b.scan_id → a = b

/-! ## Helper lemmas on the credential functions -/

/-- The separator does not occur before the first `'$'`. -/
theorem break1_append (a r : List Char) (h : '$' ∉ a) :
    break1 (a ++ '$' :: r) = some (a, r) := by
  induction a with
  | nil => simp [break1]
  | cons c cs ih =>
    simp only [List.mem_cons, not_or] at h
    have hc : ¬c = '$' := fun hh => h.1 hh.symm
    simp [break1, hc, ih h.2]

/-- The salt block never contains the separator. -/
theorem dollar_not_mem_saltChars (salt : Nat) : '$' ∉ saltChars salt := by
  simp [saltChars, List.mem_replicate]

/-- Parsing a generated hash recovers the method, the salt block and the
digest. -/
theorem parseHash_genList (salt : Nat) (p : String) :
    parseHash (genList salt p) =
      some (methodTag, saltChars salt, digestChars (saltChars salt) p) := by
  rw [genList, parseHash, break1_append _ _ (by decide)]
  simp [break1_append _ _ (dollar_not_mem_saltChars salt)]

/-- Two strings with the same character data are equal. -/
theorem string_data_inj {a b : String} (h : a.data = b.data) : a = b := by
  cases a; cases b; exact congrArg String.mk (by simpa using h)

/-- For a fixed salt block the digest determines the plaintext. -/
theorem digestChars_inj (sc : List Char) (p q : String) :
    digestChars sc p = digestChars sc q ↔ p = q := by
  constructor
  · intro h
    apply string_data_inj
    have h2 := List.append_cancel_left h
    simpa using h2
  · intro h; rw [h]

/-- Verification of a generated hash succeeds exactly on the original
plaintext. -/
theorem check_generate (salt : Nat) (p q : String) :
    check_password_hash (generate_password_hash salt p) q = true ↔ p = q := by
  have hdata : (generate_password_hash salt p).data = genList salt p := rfl
  rw [check_password_hash, hdata, parseHash_genList]
  simp [digestChars_inj]

/-- Length of a generated hash in characters. -/
theorem genList_length (salt : Nat) (p : String) :
    (genList salt p).length = p.data.length + 2 * salt + 19 := by
  simp only [genList, methodTag, saltChars, digestChars, List.length_append,
    List.length_cons, List.length_replicate, List.length_reverse, List.length_nil]
  omega

/-! ## Helper lemmas characterising the successful writes -/

/-- A successful user insert appends the row; no existing row shares the
username or the email. -/
theorem insertUser_ok {db : DB} {u : User} {db' : DB}
    (h : insertUser db u = Except.ok db') :
    db' = { db with users := db.users ++ [u] } ∧
    db.users.any (fun v => v.username == u.username || v.email == u.email) = false := by
  unfold insertUser at h
  split at h
  next hc => simp at h
  next hc =>
    split at h
    next hc2 => simp at h
    next hc2 => exact ⟨(Except.ok.inj h).symm, by simpa using hc⟩

/-- A successful scan creation appends the defaulted row; the primary key
was fresh. -/
theorem createScan_ok {db : DB} {id uid : Nat} {name range : String}
    {stype : Option String} {now : Nat} {db' : DB}
    (h : createScan db id uid name range stype now = Except.ok db') :
    db' = { db with scans := db.scans ++ [mkScan id uid name range stype now] } ∧
    db.scans.any (fun s => s.id == id) = false := by
  unfold createScan at h
  split at h
  next hc => simp at h
  next hc =>
    split at h
    next hc2 => simp at h
    next hc2 => exact ⟨(Except.ok.inj h).symm, by simpa using hc2⟩

/-- A successful device insert appends the row. -/
theorem insertDevice_ok {db : DB} {d : Device} {db' : DB}
    (h : insertDevice db d = Except.ok db') :
    db' = { db with devices := db.devices ++ [d] } := by
  unfold insertDevice at h
  split at h
  next hc => simp at h
  next hc =>
    split at h
    next hc2 => simp at h
    next hc2 => exact (Except.ok.inj h).symm

/-- A successful vulnerability insert appends the row. -/
theorem insertVulnerability_ok {db : DB} {v : Vulnerability} {db' : DB}
    (h : insertVulnerability db v = Except.ok db') :
    db' = { db with vulnerabilities := db.vulnerabilities ++ [v] } := by
  unfold insertVulnerability at h
  split at h
  next hc => simp at h
  next hc =>
    split at h
    next hc2 => simp at h
    next hc2 => exact (Except.ok.inj h).symm

/-- A successful report insert appends the row. -/
theorem insertReport_ok {db : DB} {r : Report} {db' : DB}
    (h : insertReport db r = Except.ok db') :
    db' = { db with reports := db.reports ++ [r] } := by
  unfold insertReport at h
  split at h
  next hc => simp at h
  next hc =>
    split at h
    next hc2 => simp at h
    next hc2 =>
      split at h
      next hc3 => simp at h
      next hc3 => exact (Except.ok.inj h).symm

/-- A successful solar-assessment insert appends the row. -/
theorem insertSolarAssessment_ok {db : DB} {a : SolarAssessment} {db' : DB}
    (h : insertSolarAssessment db a = Except.ok db') :
    db' = { db with solar_assessments := db.solar_assessments ++ [a] } := by
  unfold insertSolarAssessment at h
  split at h
  next hc => simp at h
  next hc =>
    split at h
    next hc2 => simp at h
    next hc2 => exact (Except.ok.inj h).symm

/-- A successful relationship assignment replaces the assessments of the
scan by the new row. -/
theorem setSolarAssessment_ok {db : DB} {a : SolarAssessment} {db' : DB}
    (h : setSolarAssessment db a = Except.ok db') :
    db' = { db with solar_assessments :=
      (db.solar_assessments.filter (fun b => !(b.scan_id == a.scan_id))) ++ [a] } := by
  unfold setSolarAssessment at h
  split at h
  next hc => simp at h
  next hc => exact (Except.ok.inj h).symm

/-- A successful threat-intelligence insert appends the row. -/
theorem insertThreatIntelligence_ok {db : DB} {t : ThreatIntelligence} {db' : DB}
    (h : insertThreatIntelligence db t = Except.ok db') :
    db' = { db with threat_intelligence := db.threat_intelligence ++ [t] } := by
  unfold insertThreatIntelligence at h
  split at h
  next hc => simp at h
  next hc => exact (Except.ok.inj h).symm

/-- A successful firewall-rule insert appends the row. -/
theorem insertFirewallRule_ok {db : DB} {f : FirewallRule} {db' : DB}
    (h : insertFirewallRule db f = Except.ok db') :
    db' = { db with firewall_rules := db.firewall_rules ++ [f] } := by
  unfold insertFirewallRule at h
  split at h
  next hc => simp at h
  next hc =>
    split at h
    next hc2 => simp at h
    next hc2 => exact (Except.ok.inj h).symm

/-- A successful status change touches only the scan table: the scan that
was found is pending and starts running with `end_time` untouched, or is
running and ends completed or failed with `end_time` set. -/
theorem setScanStatus_ok {db : DB} {sid : Nat} {ns : String} {now : Nat} {db' : DB}
    (h : setScanStatus db sid ns now = Except.ok db') :
    ∃ s, db.scans.find? (fun t => t.id == sid) = some s ∧
      db'.users = db.users ∧ db'.devices = db.devices ∧
      db'.vulnerabilities = db.vulnerabilities ∧ db'.reports = db.reports ∧
      db'.threat_intelligence = db.threat_intelligence ∧
      db'.firewall_rules = db.firewall_rules ∧
      db'.solar_assessments = db.solar_assessments ∧
      ((s.status = "pending" ∧ ns = "running" ∧ db'.scans = db.scans.map (fun t => if t.id == sid then { t with status := ns } else t)) ∨
       (s.status = "running" ∧ (ns = "completed" ∨ ns = "failed") ∧ db'.scans = db.scans.map (fun t => if t.id == sid then { t with status := ns, end_time := some now } else t))) := by
  rcases hf : db.scans.find? (fun t => t.id == sid) with _ | s
  · rw [setScanStatus, hf] at h; simp at h
  · rw [setScanStatus, hf] at h
    refine ⟨s, hf, ?_⟩
    dsimp only at h
    split at h
    next hc =>
      obtain rfl := Except.ok.inj h
      simp only [Bool.and_eq_true, beq_iff_eq] at hc
      exact ⟨rfl, rfl, rfl, rfl, rfl, rfl, rfl, Or.inl ⟨hc.1, hc.2, rfl⟩⟩
    next hc =>
      split at h
      next hc2 =>
        obtain rfl := Except.ok.inj h
        simp only [Bool.and_eq_true, Bool.or_eq_true, beq_iff_eq] at hc2
        exact ⟨rfl, rfl, rfl, rfl, rfl, rfl, rfl, Or.inr ⟨hc2.1, hc2.2, rfl⟩⟩
      next hc2 => simp at h

/-- A successful scan delete filters the owned tables by the declared
cascades and leaves the rest; no report referenced the scan. -/
theorem deleteScan_ok {db : DB} {sid : Nat} {db' : DB}
    (h : deleteScan db sid = Except.ok db') :
    db' = { db with
      scans := db.scans.filter (fun s => !(s.id == sid)),
      devices := db.devices.filter (fun d => !(d.scan_id == sid)),
      vulnerabilities := db.vulnerabilities.filter (fun v =>
        !(db.devices.any (fun d => d.id == v.device_id && d.scan_id == sid))),
      solar_assessments := db.solar_assessments.filter (fun a => !(a.scan_id == sid)) } ∧
    db.reports.any (fun r => r.scan_id == sid) = false := by
  unfold deleteScan at h
  split at h
  next hc => simp at h
  next hc => exact ⟨(Except.ok.inj h).symm, by simpa using hc⟩

/-- A successful user delete filters only the user table; no scan, report
or firewall rule referenced the user. -/
theorem deleteUser_ok {db : DB} {uid : Nat} {db' : DB}
    (h : deleteUser db uid = Except.ok db') :
    db' = { db with users := db.users.filter (fun u => !(u.id == uid)) } ∧
    db.scans.any (fun s => s.user_id == uid) = false ∧
    db.reports.any (fun r => r.user_id == uid) = false ∧
    db.firewall_rules.any (fun f => f.user_id == uid) = false := by
  unfold deleteUser at h
  split at h
  next hc => simp at h
  next hc =>
    simp only [Bool.or_eq_true, not_or, Bool.not_eq_true] at hc
    exact ⟨(Except.ok.inj h).symm, hc.1.1, hc.1.2, hc.2⟩

/-! ## Invariants of the reachable states -/

/-- The declared unique columns of the user table: no two rows share a
username, no two rows share an email. -/
def userTableInv (db : DB) : Prop :=
  (db.users.map User.username).Nodup ∧ (db.users.map User.email).Nodup

/-- Scan-table invariant: primary keys are distinct and `end_time` is
set only on scans in a terminal status. -/
def scanTableInv (db : DB) : Prop :=
  (db.scans.map Scan.id).Nodup ∧
  ∀ s ∈ db.scans, s.end_time ≠ none → s.status = "completed" ∨ s.status = "failed"

/-- Every schema-constrained write preserves the user-table uniqueness
invariant. -/
theorem userTableInv_step {db db' : DB} (hs : Step db db') (h : userTableInv db) :
    userTableInv db' := by
  cases hs with
  | insUser =>
    rename_i u hok
    obtain ⟨rfl, hguard⟩ := insertUser_ok hok
    have hg := List.any_eq_false.mp hguard
    constructor
    · rw [show ({ db with users := db.users ++ [u] } : DB).users = db.users ++ [u] from rfl,
        List.map_append, List.nodup_append]
      refine ⟨h.1, by simp, ?_⟩
      intro a ha hb
      simp only [List.map_cons, List.map_nil, List.mem_singleton] at hb
      obtain ⟨v, hv, hva⟩ := List.mem_map.mp ha
      have hvg := hg v hv
      simp only [Bool.or_eq_true, beq_iff_eq, not_or] at hvg
      exact hvg.1 (hva.trans hb)
    · rw [show ({ db with users := db.users ++ [u] } : DB).users = db.users ++ [u] from rfl,
        List.map_append, List.nodup_append]
      refine ⟨h.2, by simp, ?_⟩
      intro a ha hb
      simp only [List.map_cons, List.map_nil, List.mem_singleton] at hb
      obtain ⟨v, hv, hva⟩ := List.mem_map.mp ha
      have hvg := hg v hv
      simp only [Bool.or_eq_true, beq_iff_eq, not_or] at hvg
      exact hvg.2 (hva.trans hb)
  | newScan =>
    rename_i id uid name range stype now hok
    obtain ⟨rfl, -⟩ := createScan_ok hok
    exact h
  | insDevice =>
    rename_i d hok
    obtain rfl := insertDevice_ok hok
    exact h
  | insVuln =>
    rename_i v hok
    obtain rfl := insertVulnerability_ok hok
    exact h
  | insReport =>
    rename_i r hok
    obtain rfl := insertReport_ok hok
    exact h
  | insSolar =>
    rename_i a hok
    obtain rfl := insertSolarAssessment_ok hok
    exact h
  | setSolar =>
    rename_i a hok
    obtain rfl := setSolarAssessment_ok hok
    exact h
  | insThreat =>
    rename_i t hok
    obtain rfl := insertThreatIntelligence_ok hok
    exact h
  | insFirewall =>
    rename_i f hok
    obtain rfl := insertFirewallRule_ok hok
    exact h
  | status =>
    rename_i sid ns now hok
    obtain ⟨s0, hf, hu, -, -, -, -, -, -, -⟩ := setScanStatus_ok hok
    exact ⟨by rw [hu]; exact h.1, by rw [hu]; exact h.2⟩
  | delScan =>
    rename_i sid hok
    obtain ⟨rfl, -⟩ := deleteScan_ok hok
    exact h
  | delUser =>
    rename_i uid hok
    obtain ⟨rfl, -⟩ := deleteUser_ok hok
    have hsub : List.Sublist ((db.users.filter (fun u => !(u.id == uid))).map User.username)
        (db.users.map User.username) := (List.filter_sublist db.users).map User.username
    have hsub2 : List.Sublist ((db.users.filter (fun u => !(u.id == uid))).map User.email)
        (db.users.map User.email) := (List.filter_sublist db.users).map User.email
    exact ⟨List.Nodup.sublist hsub h.1, List.Nodup.sublist hsub2 h.2⟩

/-- Every reachable state satisfies the user-table uniqueness
invariant. -/
theorem userTableInv_reachable {db : DB} (h : Reachable db) : userTableInv db := by
  induction h with
  | init => exact ⟨List.nodup_nil, List.nodup_nil⟩
  | step db db' hr hs ih => exact userTableInv_step hs ih

/-- Every schema-constrained write preserves the scan-table invariant. -/
theorem scanTableInv_step {db db' : DB} (hs : Step db db') (h : scanTableInv db) :
    scanTableInv db' := by
  cases hs with
  | insUser =>
    rename_i u hok
    obtain ⟨rfl, -⟩ := insertUser_ok hok
    exact h
  | newScan =>
    rename_i id uid name range stype now hok
    obtain ⟨rfl, hguard⟩ := createScan_ok hok
    have hg := List.any_eq_false.mp hguard
    constructor
    · rw [show ({ db with scans := db.scans ++ [mkScan id uid name range stype now] } : DB).scans
          = db.scans ++ [mkScan id uid name range stype now] from rfl,
        List.map_append, List.nodup_append]
      refine ⟨h.1, by simp, ?_⟩
      intro a ha hb
      simp only [List.map_cons, List.map_nil, List.mem_singleton] at hb
      obtain ⟨s, hsmem, hsa⟩ := List.mem_map.mp ha
      have hsg := hg s hsmem
      simp only [beq_iff_eq] at hsg
      exact hsg (hsa.trans (hb.trans (show (mkScan id uid name range stype now).id = id from rfl)))
    · intro s hsmem hne
      rcases List.mem_append.mp hsmem with hold | hnew
      · exact h.2 s hold hne
      · simp only [List.mem_singleton] at hnew
        subst hnew
        exact absurd rfl hne
  | insDevice =>
    rename_i d hok
    obtain rfl := insertDevice_ok hok
    exact h
  | insVuln =>
    rename_i v hok
    obtain rfl := insertVulnerability_ok hok
    exact h
  | insReport =>
    rename_i r hok
    obtain rfl := insertReport_ok hok
    exact h
  | insSolar =>
    rename_i a hok
    obtain rfl := insertSolarAssessment_ok hok
    exact h
  | setSolar =>
    rename_i a hok
    obtain rfl := setSolarAssessment_ok hok
    exact h
  | insThreat =>
    rename_i t hok
    obtain rfl := insertThreatIntelligence_ok hok
    exact h
  | insFirewall =>
    rename_i f hok
    obtain rfl := insertFirewallRule_ok hok
    exact h
  | status =>
    rename_i sid ns now hok
    obtain ⟨s0, hf, -, -, -, -, -, -, -, hbr⟩ := setScanStatus_ok hok
    have hs0mem : s0 ∈ db.scans := List.mem_of_find?_eq_some hf
    have hs0id : s0.id = sid := by simpa using List.find?_some hf
    rcases hbr with ⟨hpend, hns, hscans⟩ | ⟨hrun, hns, hscans⟩
    · constructor
      · rw [hscans, List.map_map]
        have hcongr : db.scans.map (Scan.id ∘ fun t =>
            if t.id == sid then { t with status := ns } else t) = db.scans.map Scan.id := by
          apply List.map_congr_left
          intro t ht
          by_cases hc : (t.id == sid) = true <;> simp [Function.comp, hc]
        rw [hcongr]; exact h.1
      · rw [hscans]
        intro s hsmem hne
        obtain ⟨t, ht, rfl⟩ := List.mem_map.mp hsmem
        by_cases hc : (t.id == sid) = true
        · rw [if_pos hc] at hne ⊢
          have htid : t.id = sid := by simpa using hc
          have hts0 : t = s0 :=
            List.inj_on_of_nodup_map h.1 ht hs0mem (htid.trans hs0id.symm)
          have hterm := h.2 t ht
          have hendnone : t.end_time = none := by
            by_contra hcon
            rcases hterm hcon with hcc | hcc <;> rw [hts0, hpend] at hcc <;>
              exact absurd hcc (by decide)
          exact absurd hendnone (by simpa using hne)
        · rw [if_neg hc] at hne ⊢
          exact h.2 t ht hne
    · constructor
      · rw [hscans, List.map_map]
        have hcongr : db.scans.map (Scan.id ∘ fun t =>
            if t.id == sid then { t with status := ns, end_time := some now } else t)
            = db.scans.map Scan.id := by
          apply List.map_congr_left
          intro t ht
          by_cases hc : (t.id == sid) = true <;> simp [Function.comp, hc]
        rw [hcongr]; exact h.1
      · rw [hscans]
        intro s hsmem hne
        obtain ⟨t, ht, rfl⟩ := List.mem_map.mp hsmem
        by_cases hc : (t.id == sid) = true
        · rw [if_pos hc]
          exact hns
        · rw [if_neg hc] at hne ⊢
          exact h.2 t ht hne
  | delScan =>
    rename_i sid hok
    obtain ⟨rfl, -⟩ := deleteScan_ok hok
    constructor
    · exact List.Nodup.sublist ((List.filter_sublist db.scans).map Scan.id) h.1
    · intro s hsmem hne
      exact h.2 s (List.mem_of_mem_filter hsmem) hne
  | delUser =>
    rename_i uid hok
    obtain ⟨rfl, -⟩ := deleteUser_ok hok
    exact h

/-- Every reachable state satisfies the scan-table invariant. -/
theorem scanTableInv_reachable {db : DB} (h : Reachable db) : scanTableInv db := by
  induction h with
  | init => exact ⟨List.nodup_nil, by intro s hs; simp [DB.empty] at hs⟩
  | step db db' hr hs ih => exact scanTableInv_step hs ih

/-! ## Reachability of the concrete states -/

/-- One user inserted into the empty database. -/
theorem dbU_reachable : Reachable dbU :=
  Reachable.step DB.empty dbU Reachable.init (Step.insUser DB.empty wUser dbU (by rfl))

/-- A scan created for that user. -/
theorem dbS_reachable : Reachable dbS :=
  Reachable.step dbU dbS dbU_reachable
    (Step.newScan dbU 1 1 "perimeter" "10.0.0.0/24" none 0 dbS (by rfl))

/-- A solar assessment row plainly inserted for the scan. -/
theorem dbA1_reachable : Reachable dbA1 :=
  Reachable.step dbS dbA1 dbS_reachable (Step.insSolar dbS wSolar dbA1 (by rfl))

/-- A second solar assessment row plainly inserted for the same scan. -/
theorem dbBad_reachable : Reachable dbBad :=
  Reachable.step dbA1 dbBad dbA1_reachable (Step.insSolar dbA1 wSolar2 dbBad (by rfl))

/-! ## The claims -/

/-- C1: for every `User` and plaintext `p`, `set_password(p)` followed by
`check_password(p)` returns true, and `check_password(q)` for any `q`
different from `p` returns false. -/
theorem claim1_set_then_check (u : User) (rng : Nat) (p q : String) :
    ((u.set_password rng p).1).check_password p = true ∧
    (q ≠ p → ((u.set_password rng p).1).check_password q = false) := by
  constructor
  · exact (check_generate rng p p).mpr rfl
  · intro hne
    have hch : ((u.set_password rng p).1).check_password q =
        check_password_hash (generate_password_hash rng p) q := rfl
    rw [hch]
    rcases hb : check_password_hash (generate_password_hash rng p) q with _ | _
    · rfl
    · exact absurd ((check_generate rng p q).mp hb) (fun hh => hne hh.symm)

/-- Witness for C1 at a concrete user and plaintexts. -/
theorem claim1_set_then_check_witness :
    ((wUser.set_password 0 "hunter2").1).check_password "hunter2" = true ∧
    ((wUser.set_password 0 "hunter2").1).check_password "letmein" = false :=
  ⟨(claim1_set_then_check wUser 0 "hunter2" "letmein").1,
   (claim1_set_then_check wUser 0 "hunter2" "letmein").2 (by decide)⟩

/-- C2: after `set_password(p)` the stored `password_hash` differs from
the plaintext, a second call with the same plaintext stores a different
hash (fresh salt), and no field other than `password_hash` is written, so
the plaintext is not persisted anywhere in the row. -/
theorem claim2_salted_hash (u : User) (rng : Nat) (p : String) :
    ((u.set_password rng p).1).password_hash ≠ p ∧
    ((u.set_password rng p).1).password_hash ≠
      (((u.set_password rng p).1).set_password (u.set_password rng p).2 p).1.password_hash ∧
    ((u.set_password rng p).1).id = u.id ∧
    ((u.set_password rng p).1).username = u.username ∧
    ((u.set_password rng p).1).email = u.email ∧
    ((u.set_password rng p).1).company_name = u.company_name ∧
    ((u.set_password rng p).1).address = u.address ∧
    ((u.set_password rng p).1).phone = u.phone ∧
    ((u.set_password rng p).1).created_at = u.created_at := by
  refine ⟨?_, ?_, rfl, rfl, rfl, rfl, rfl, rfl, rfl⟩
  · intro hcon
    have hdata : genList rng p = p.data := congrArg String.data hcon
    have hlen := congrArg List.length hdata
    rw [genList_length] at hlen
    omega
  · intro hcon
    have hdata : genList rng p = genList (rng + 1) p := congrArg String.data hcon
    have hlen := congrArg List.length hdata
    rw [genList_length, genList_length] at hlen
    omega

/-- C7: `check_password` is total and boolean-valued: on any stored hash
and any candidate plaintext it returns `true` or `false`, never an
error. -/
theorem claim7_check_total (u : User) (p : String) :
    u.check_password p = true ∨ u.check_password p = false := by
  rcases hb : u.check_password p with _ | _
  · exact Or.inr rfl
  · exact Or.inl rfl

/-- C3: a successful scan delete removes exactly the scan's devices,
the vulnerabilities of those devices and the scan's solar assessments,
and leaves the users, the other scans (with their children) and the
remaining tables unchanged. -/
theorem claim3_cascade_delete (db : DB) (sid : Nat) (db' : DB)
    (h : deleteScan db sid = Except.ok db') :
    db'.users = db.users ∧
    (∀ s : Scan, s ∈ db'.scans ↔ s ∈ db.scans ∧ s.id ≠ sid) ∧
    (∀ d : Device, d ∈ db'.devices ↔ d ∈ db.devices ∧ d.scan_id ≠ sid) ∧
    (∀ v : Vulnerability, v ∈ db'.vulnerabilities ↔
      v ∈ db.vulnerabilities ∧ ¬∃ d, d ∈ db.devices ∧ d.id = v.device_id ∧ d.scan_id = sid) ∧
    (∀ a : SolarAssessment, a ∈ db'.solar_assessments ↔
      a ∈ db.solar_assessments ∧ a.scan_id ≠ sid) ∧
    db'.reports = db.reports ∧
    db'.threat_intelligence = db.threat_intelligence ∧
    db'.firewall_rules = db.firewall_rules := by
  obtain ⟨rfl, -⟩ := deleteScan_ok h
  refine ⟨rfl, ?_, ?_, ?_, ?_, rfl, rfl, rfl⟩
  · intro s
    simp [List.mem_filter]
  · intro d
    simp [List.mem_filter]
  · intro v
    simp only [List.mem_filter, Bool.not_eq_true', List.any_eq_false, Bool.and_eq_true,
      beq_iff_eq, not_and, not_exists]
  · intro a
    simp [List.mem_filter]

/-- Witness for C3: deleting the first scan of a two-scan state. -/
theorem claim3_cascade_delete_witness :
    dbFullDel.users = dbFull.users ∧
    (∀ s : Scan, s ∈ dbFullDel.scans ↔ s ∈ dbFull.scans ∧ s.id ≠ 1) ∧
    (∀ d : Device, d ∈ dbFullDel.devices ↔ d ∈ dbFull.devices ∧ d.scan_id ≠ 1) ∧
    (∀ v : Vulnerability, v ∈ dbFullDel.vulnerabilities ↔
      v ∈ dbFull.vulnerabilities ∧ ¬∃ d, d ∈ dbFull.devices ∧ d.id = v.device_id ∧ d.scan_id = 1) ∧
    (∀ a : SolarAssessment, a ∈ dbFullDel.solar_assessments ↔
      a ∈ dbFull.solar_assessments ∧ a.scan_id ≠ 1) ∧
    dbFullDel.reports = dbFull.reports ∧
    dbFullDel.threat_intelligence = dbFull.threat_intelligence ∧
    dbFullDel.firewall_rules = dbFull.firewall_rules :=
  claim3_cascade_delete dbFull 1 dbFullDel (by rfl)

/-- C4 counterexample: a reachable state holds two distinct
`SolarAssessment` rows with the same `scan_id` — the schema puts no
unique constraint on `SolarAssessment.scan_id`, so plain row inserts
admit duplicates regardless of the scan's status. -/
theorem claim4_cex :
    Reachable dbBad ∧ wSolar ∈ dbBad.solar_assessments ∧
    wSolar2 ∈ dbBad.solar_assessments ∧ wSolar.scan_id = wSolar2.scan_id ∧
    wSolar ≠ wSolar2 :=
  ⟨dbBad_reachable, by simp [dbBad], by simp [dbBad], rfl, by decide⟩

/-- C4 amended: uniqueness holds for assessments managed through the
`Scan.solar_assessment` relationship — the `uselist=False`,
`delete-orphan` assignment replaces the previous assessment, so it
preserves the at-most-one invariant. -/
theorem claim4_relationship_unique (db : DB) (a : SolarAssessment) (db' : DB)
    (h1 : solarUniquePerScan db) (h : setSolarAssessment db a = Except.ok db') :
    solarUniquePerScan db' := by
  obtain rfl := setSolarAssessment_ok h
  intro x hx y hy hxy
  rcases List.mem_append.mp hx with hx2 | hx2
  · rcases List.mem_append.mp hy with hy2 | hy2
    · exact h1 x (List.mem_of_mem_filter hx2) y (List.mem_of_mem_filter hy2) hxy
    · obtain rfl := List.mem_singleton.mp hy2
      have hpx := List.of_mem_filter hx2
      simp only [Bool.not_eq_true', beq_eq_false_iff_ne] at hpx
      exact absurd hxy hpx
  · obtain rfl := List.mem_singleton.mp hx2
    rcases List.mem_append.mp hy with hy2 | hy2
    · have hpy := List.of_mem_filter hy2
      simp only [Bool.not_eq_true', beq_eq_false_iff_ne] at hpy
      exact absurd hxy.symm hpy
    · obtain rfl := List.mem_singleton.mp hy2
      rfl

/-- Witness for the amended C4: assigning an assessment to the scan of
an assessment-free state keeps at most one assessment per scan. -/
theorem claim4_relationship_unique_witness :
    solarUniquePerScan dbS ∧ setSolarAssessment dbS wSolar = Except.ok dbA1 ∧
    solarUniquePerScan dbA1 := by
  have h1 : solarUniquePerScan dbS := by
    intro x hx
    exact absurd hx (by simp [dbS, dbU, DB.empty])
  have h2 : setSolarAssessment dbS wSolar = Except.ok dbA1 := by rfl
  exact ⟨h1, h2, claim4_relationship_unique dbS wSolar dbA1 h1 h2⟩

/-- C5: in every reachable state no two users share a username and no
two share an email, and an insert that collides on either column fails
with the distinguishable duplicate error. -/
theorem claim5_unique_users (db : DB) (u : User) :
    (Reachable db →
      (db.users.map User.username).Nodup ∧ (db.users.map User.email).Nodup) ∧
    ((∃ v ∈ db.users, v.username = u.username ∨ v.email = u.email) →
      insertUser db u = Except.error DBError.duplicate) := by
  constructor
  · exact fun h => userTableInv_reachable h
  · intro ⟨v, hv, hvu⟩
    have hany : db.users.any (fun w => w.username == u.username || w.email == u.email)
        = true := by
      rw [List.any_eq_true]
      exact ⟨v, hv, by rcases hvu with h1 | h1 <;> simp [h1]⟩
    simp [insertUser, hany]

/-- Witness for C5: a reachable one-user state, and a colliding insert
rejected as duplicate. -/
theorem claim5_unique_users_witness :
    ((dbU.users.map User.username).Nodup ∧ (dbU.users.map User.email).Nodup) ∧
    insertUser dbU wUserDup = Except.error DBError.duplicate :=
  ⟨(claim5_unique_users dbU wUserDup).1 dbU_reachable,
   (claim5_unique_users dbU wUserDup).2 ⟨wUser, by simp [dbU], Or.inl rfl⟩⟩

/-- C6: inserting a `Device`, `Vulnerability`, `Report` or
`SolarAssessment` whose parent foreign key references no existing row
fails with the foreign-key error, leaving no new state. -/
theorem claim6_fk_orphan_insert (db : DB) (d : Device) (v : Vulnerability)
    (r : Report) (a : SolarAssessment) :
    ((¬∃ s ∈ db.scans, s.id = d.scan_id) →
      insertDevice db d = Except.error DBError.fkViolation) ∧
    ((¬∃ e ∈ db.devices, e.id = v.device_id) →
      insertVulnerability db v = Except.error DBError.fkViolation) ∧
    (((¬∃ w ∈ db.users, w.id = r.user_id) ∨ (¬∃ s ∈ db.scans, s.id = r.scan_id)) →
      insertReport db r = Except.error DBError.fkViolation) ∧
    ((¬∃ s ∈ db.scans, s.id = a.scan_id) →
      insertSolarAssessment db a = Except.error DBError.fkViolation) := by
  refine ⟨?_, ?_, ?_, ?_⟩
  · intro hno
    have hf : hasScan db d.scan_id = false := by
      rw [hasScan, List.any_eq_false]
      intro s hs
      simp only [beq_iff_eq]
      exact fun he => hno ⟨s, hs, he⟩
    simp [insertDevice, hf]
  · intro hno
    have hf : hasDevice db v.device_id = false := by
      rw [hasDevice, List.any_eq_false]
      intro e he
      simp only [beq_iff_eq]
      exact fun hee => hno ⟨e, he, hee⟩
    simp [insertVulnerability, hf]
  · intro hno
    rcases hno with hno | hno
    · have hf : hasUser db r.user_id = false := by
        rw [hasUser, List.any_eq_false]
        intro w hw
        simp only [beq_iff_eq]
        exact fun he => hno ⟨w, hw, he⟩
      simp [insertReport, hf]
    · have hf : hasScan db r.scan_id = false := by
        rw [hasScan, List.any_eq_false]
        intro s hs
        simp only [beq_iff_eq]
        exact fun he => hno ⟨s, hs, he⟩
      rcases hu : hasUser db r.user_id with _ | _ <;> simp [insertReport, hu, hf]
  · intro hno
    have hf : hasScan db a.scan_id = false := by
      rw [hasScan, List.any_eq_false]
      intro s hs
      simp only [beq_iff_eq]
      exact fun he => hno ⟨s, hs, he⟩
    simp [insertSolarAssessment, hf]

/-- Witness for C6: all four orphan inserts fail on the empty
database. -/
theorem claim6_fk_orphan_insert_witness :
    insertDevice DB.empty wDevice = Except.error DBError.fkViolation ∧
    insertVulnerability DB.empty wVuln = Except.error DBError.fkViolation ∧
    insertReport DB.empty wReport = Except.error DBError.fkViolation ∧
    insertSolarAssessment DB.empty wSolar = Except.error DBError.fkViolation :=
  ⟨(claim6_fk_orphan_insert DB.empty wDevice wVuln wReport wSolar).1 (by simp [DB.empty]),
   (claim6_fk_orphan_insert DB.empty wDevice wVuln wReport wSolar).2.1 (by simp [DB.empty]),
   (claim6_fk_orphan_insert DB.empty wDevice wVuln wReport wSolar).2.2.1
     (Or.inl (by simp [DB.empty])),
   (claim6_fk_orphan_insert DB.empty wDevice wVuln wReport wSolar).2.2.2 (by simp [DB.empty])⟩

/-- C8: a newly created scan carries the defaults — status pending,
scan type standard when unspecified, zero counters, creation-time
`start_time`, unset `end_time` — and in every reachable state a scan
with a set `end_time` is in a terminal status (the transition code is
modelled from the spec). -/
theorem claim8_scan_defaults (id uid : Nat) (nm rg : String) (t : Option String)
    (now : Nat) (db : DB) :
    (mkScan id uid nm rg t now).status = "pending" ∧
    (mkScan id uid nm rg none now).scan_type = "standard" ∧
    (mkScan id uid nm rg t now).total_devices = 0 ∧
    (mkScan id uid nm rg t now).vulnerable_devices = 0 ∧
    (mkScan id uid nm rg t now).start_time = now ∧
    (mkScan id uid nm rg t now).end_time = none ∧
    (Reachable db → ∀ s ∈ db.scans, s.end_time ≠ none →
      s.status = "completed" ∨ s.status = "failed") :=
  ⟨rfl, rfl, rfl, rfl, rfl, rfl, fun h => (scanTableInv_reachable h).2⟩

/-- Witness for C8: the defaults at concrete inputs and the terminal
invariant at a reachable one-scan state. -/
theorem claim8_scan_defaults_witness :
    (mkScan 3 1 "weekly" "192.168.0.0/24" none 5).status = "pending" ∧
    (mkScan 3 1 "weekly" "192.168.0.0/24" none 5).scan_type = "standard" ∧
    (mkScan 3 1 "weekly" "192.168.0.0/24" none 5).total_devices = 0 ∧
    (mkScan 3 1 "weekly" "192.168.0.0/24" none 5).vulnerable_devices = 0 ∧
    (mkScan 3 1 "weekly" "192.168.0.0/24" none 5).start_time = 5 ∧
    (mkScan 3 1 "weekly" "192.168.0.0/24" none 5).end_time = none ∧
    (∀ s ∈ dbS.scans, s.end_time ≠ none →
      s.status = "completed" ∨ s.status = "failed") := by
  have h := claim8_scan_defaults 3 1 "weekly" "192.168.0.0/24" none 5 dbS
  exact ⟨h.1, h.2.1, h.2.2.1, h.2.2.2.1, h.2.2.2.2.1, h.2.2.2.2.2.1,
    h.2.2.2.2.2.2 dbS_reachable⟩

/-- C9: reports are not cascade-deleted with their scan — deleting a
scan that still has a report fails with the restriction error, and a
successful scan delete leaves the report table unchanged. -/
theorem claim9_report_restrict (db : DB) (sid : Nat) (db' : DB) :
    ((∃ r ∈ db.reports, r.scan_id = sid) →
      deleteScan db sid = Except.error DBError.restrictViolation) ∧
    (deleteScan db sid = Except.ok db' → db'.reports = db.reports) := by
  constructor
  · intro ⟨r, hr, hrs⟩
    have hany : db.reports.any (fun w => w.scan_id == sid) = true := by
      rw [List.any_eq_true]
      exact ⟨r, hr, by simp [hrs]⟩
    simp [deleteScan, hany]
  · intro h
    obtain ⟨rfl, -⟩ := deleteScan_ok h
    rfl

/-- Witness for C9: the restricted delete at a state with a report, and
a successful delete elsewhere keeping the reports. -/
theorem claim9_report_restrict_witness :
    deleteScan dbR 1 = Except.error DBError.restrictViolation ∧
    dbFullDel.reports = dbFull.reports :=
  ⟨(claim9_report_restrict dbR 1 dbR).1 ⟨wReport, by simp [dbR], rfl⟩,
   (claim9_report_restrict dbFull 1 dbFullDel).2 (by rfl)⟩

/-- C10: a user's scans are not cascade-deleted with the user — deleting
a user that still owns a scan fails with the restriction error, and a
successful user delete removes exactly that user row, leaving every
other table (the scans in particular) unchanged. -/
theorem claim10_user_restrict (db : DB) (uid : Nat) (db' : DB) :
    ((∃ s ∈ db.scans, s.user_id = uid) →
      deleteUser db uid = Except.error DBError.restrictViolation) ∧
    (deleteUser db uid = Except.ok db' →
      db'.scans = db.scans ∧ db'.devices = db.devices ∧
      db'.vulnerabilities = db.vulnerabilities ∧ db'.reports = db.reports ∧
      db'.threat_intelligence = db.threat_intelligence ∧
      db'.firewall_rules = db.firewall_rules ∧
      db'.solar_assessments = db.solar_assessments ∧
      (∀ w : User, w ∈ db'.users ↔ w ∈ db.users ∧ w.id ≠ uid)) := by
  constructor
  · intro ⟨s0, hs0, hsu⟩
    have hany : db.scans.any (fun s => s.user_id == uid) = true := by
      rw [List.any_eq_true]
      exact ⟨s0, hs0, by simp [hsu]⟩
    simp [deleteUser, hany]
  · intro h
    obtain ⟨rfl, -, -, -⟩ := deleteUser_ok h
    refine ⟨rfl, rfl, rfl, rfl, rfl, rfl, rfl, ?_⟩
    intro w
    simp [List.mem_filter]

/-- Witness for C10: the restricted delete at a state with a scan, and a
successful delete of a scan-free user. -/
theorem claim10_user_restrict_witness :
    deleteUser dbS 1 = Except.error DBError.restrictViolation ∧
    (dbUDel.scans = dbU.scans ∧ dbUDel.devices = dbU.devices ∧
      dbUDel.vulnerabilities = dbU.vulnerabilities ∧ dbUDel.reports = dbU.reports ∧
      dbUDel.threat_intelligence = dbU.threat_intelligence ∧
      dbUDel.firewall_rules = dbU.firewall_rules ∧
      dbUDel.solar_assessments = dbU.solar_assessments ∧
      (∀ w : User, w ∈ dbUDel.users ↔ w ∈ dbU.users ∧ w.id ≠ 1)) :=
  ⟨(claim10_user_restrict dbS 1 dbS).1 ⟨wScan, by simp [dbS], rfl⟩,
   (claim10_user_restrict dbU 1 dbUDel).2 (by rfl)⟩
